import Mathlib

/-!
Verification development for the VoiceBot repository (src/voiceai.py).

The file shallowly embeds the two decision-logic subsystems of the source:

* the Language Router: the script-classification predicates
  `Assistant._is_hindi_input` / `Assistant._is_urdu_script`, the routing
  decision `Assistant._should_respond_in_urdu`, and the resilient
  `Assistant.say` wrapper around the underlying speak primitive;
* the Bootstrap Sequencer: the credential preconditions and the four
  per-slot try/except fallback chains of `entrypoint`, followed by session
  creation, session start and the timeout-bounded initial greeting.

External services (speech backends, the agent session, the greeting
generation) are modelled as oracles supplied to the embedded functions, so
theorems quantify over every possible success/failure behaviour of the
environment. Python strings are modelled as Lean `String` values and are
inspected code point by code point through `String.data`; Python
exceptions are modelled as `Except String` values.
-/

/-- Code points Python's `str.isspace` (hence `str.strip()`) treats as
whitespace: 0x09-0x0D, 0x1C-0x20, NEL, NBSP, Ogham space, the general
punctuation spaces 0x2000-0x200A, line/paragraph separator, narrow
no-break space, medium mathematical space and ideographic space. -/
def pyIsSpace (c : Char) : Bool :=
  (0x09 ≤ c.toNat && c.toNat ≤ 0x0D) ||
  (0x1C ≤ c.toNat && c.toNat ≤ 0x20) ||
  c.toNat == 0x85 || c.toNat == 0xA0 || c.toNat == 0x1680 ||
  (0x2000 ≤ c.toNat && c.toNat ≤ 0x200A) ||
  c.toNat == 0x2028 || c.toNat == 0x2029 ||
  c.toNat == 0x202F || c.toNat == 0x205F || c.toNat == 0x3000

/-- Python `s.strip()`: remove leading and trailing whitespace code points. -/
def pyStrip (s : String) : String :=
  ⟨((s.data.dropWhile pyIsSpace).reverse.dropWhile pyIsSpace).reverse⟩

/-- Python truthiness of a string (`not s` is true exactly when `s` is empty);
the source tests `not user_input`. -/
def pyFalsy (s : String) : Bool :=
  s.data.isEmpty

/-- The source's Devanagari test on one code point: membership in the
range 0x0900 through 0x097F (src/voiceai.py line 72). -/
def isDevanagariChar (c : Char) : Bool :=
  0x0900 ≤ c.toNat && c.toNat ≤ 0x097F

/-- The source's Arabic-script test on one code point: membership in one of
the five ranges Arabic, Arabic Supplement, Arabic Extended-A, Arabic
Presentation Forms-A, Arabic Presentation Forms-B
(src/voiceai.py lines 87-91). -/
def isArabicChar (c : Char) : Bool :=
  (0x0600 ≤ c.toNat && c.toNat ≤ 0x06FF) ||
  (0x0750 ≤ c.toNat && c.toNat ≤ 0x077F) ||
  (0x08A0 ≤ c.toNat && c.toNat ≤ 0x08FF) ||
  (0xFB50 ≤ c.toNat && c.toNat ≤ 0xFDFF) ||
  (0xFE70 ≤ c.toNat && c.toNat ≤ 0xFEFF)

/-- Body of the `try` block of `Assistant._is_hindi_input`
(src/voiceai.py lines 68-73): return False on empty or whitespace-only
input, else report whether any code point is Devanagari. The body is a
value of the exception monad because the source wraps it in
`try/except`. -/
def hindiBody (s : String) : Except String Bool :=
  if pyFalsy s || pyFalsy (pyStrip s) then Except.ok false
  else Except.ok (s.data.any isDevanagariChar)

/-- Body of the `try` block of `Assistant._is_urdu_script`
(src/voiceai.py lines 82-95). -/
def urduBody (s : String) : Except String Bool :=
  if pyFalsy s || pyFalsy (pyStrip s) then Except.ok false
  else Except.ok (s.data.any isArabicChar)

/-- The `except` clause shared by both detection predicates
(src/voiceai.py lines 75-77 and 96-98): a raised exception is caught,
logged, and turned into the negative classification `false`. -/
def catchFalse (r : Except String Bool) : Bool :=
  match r with
  | Except.ok b => b
  | Except.error _ => false

/-- `Assistant._is_hindi_input` (src/voiceai.py lines 65-77). -/
def is_hindi_input (s : String) : Bool :=
  catchFalse (hindiBody s)

/-- `Assistant._is_urdu_script` (src/voiceai.py lines 79-98). -/
def is_urdu_script (s : String) : Bool :=
  catchFalse (urduBody s)

/-- `Assistant._should_respond_in_urdu` (src/voiceai.py lines 100-103):
respond in Urdu script exactly when the input is Devanagari. -/
def should_respond_in_urdu (s : String) : Bool :=
  is_hindi_input s

/-- Script tags of the spec's `classify_script`. -/
inductive ScriptTag where
  | devanagari
  | arabic
  | noScript
deriving DecidableEq, Repr

/-- The spec's `classify_script`, composed from the two source predicates
with the spec's precedence: Devanagari if `_is_hindi_input`, else
Arabic-script if `_is_urdu_script`, else no script. -/
def classify_script (s : String) : ScriptTag :=
  if is_hindi_input s then ScriptTag.devanagari
  else if is_urdu_script s then ScriptTag.arabic
  else ScriptTag.noScript

/-- Output-script decisions of the spec's `required_output_script`. -/
inductive OutputScript where
  | arabicScript
  | latinScript
deriving DecidableEq, Repr

/-- The spec's `required_output_script`, the script-valued reading of the
boolean routing decision `_should_respond_in_urdu`. -/
def required_output_script (s : String) : OutputScript :=
  if should_respond_in_urdu s then OutputScript.arabicScript
  else OutputScript.latinScript

/-- The routing table: Devanagari-classified input requires Arabic-script
output, every other tag requires Latin-script output. -/
def routeOfTag : ScriptTag → OutputScript
  | ScriptTag.devanagari => OutputScript.arabicScript
  | ScriptTag.arabic => OutputScript.latinScript
  | ScriptTag.noScript => OutputScript.latinScript

theorem pyIsSpace_not_devanagari (c : Char) (h : pyIsSpace c = true) :
    isDevanagariChar c = false := by
  simp only [pyIsSpace, Bool.or_eq_true, Bool.and_eq_true, decide_eq_true_eq,
    beq_iff_eq] at h
  simp only [isDevanagariChar, Bool.and_eq_false_iff, decide_eq_false_iff_not,
    not_le]
  omega

theorem pyIsSpace_not_arabic (c : Char) (h : pyIsSpace c = true) :
    isArabicChar c = false := by
  simp only [pyIsSpace, Bool.or_eq_true, Bool.and_eq_true, decide_eq_true_eq,
    beq_iff_eq] at h
  simp only [isArabicChar, Bool.or_eq_false_iff, Bool.and_eq_false_iff,
    decide_eq_false_iff_not, not_le]
  omega

theorem pyStrip_nil_all_space (s : String) (h : pyFalsy (pyStrip s) = true) :
    ∀ c ∈ s.data, pyIsSpace c = true := by
  intro c hc
  simp only [pyFalsy, pyStrip, List.isEmpty_iff, List.reverse_eq_nil_iff,
    List.dropWhile_eq_nil_iff, List.mem_reverse] at h
  have hsplit : c ∈ s.data.takeWhile pyIsSpace ++ s.data.dropWhile pyIsSpace := by
    rw [List.takeWhile_append_dropWhile]
    exact hc
  rcases List.mem_append.mp hsplit with hc1 | hc2
  · exact List.mem_takeWhile_imp hc1
  · exact h c hc2

theorem is_hindi_input_eq_any (s : String) :
    is_hindi_input s = s.data.any isDevanagariChar := by
  by_cases h : (pyFalsy s || pyFalsy (pyStrip s)) = true
  · simp only [is_hindi_input, hindiBody, if_pos h, catchFalse]
    rcases Bool.or_eq_true_iff.mp h with h1 | h2
    · simp only [pyFalsy, List.isEmpty_iff] at h1
      rw [h1]
      rfl
    · have hall := pyStrip_nil_all_space s h2
      symm
      simp only [List.any_eq_false]
      intro c hc
      simp [pyIsSpace_not_devanagari c (hall c hc)]
  · simp only [is_hindi_input, hindiBody, if_neg h, catchFalse]

theorem is_urdu_script_eq_any (s : String) :
    is_urdu_script s = s.data.any isArabicChar := by
  by_cases h : (pyFalsy s || pyFalsy (pyStrip s)) = true
  · simp only [is_urdu_script, urduBody, if_pos h, catchFalse]
    rcases Bool.or_eq_true_iff.mp h with h1 | h2
    · simp only [pyFalsy, List.isEmpty_iff] at h1
      rw [h1]
      rfl
    · have hall := pyStrip_nil_all_space s h2
      symm
      simp only [List.any_eq_false]
      intro c hc
      simp [pyIsSpace_not_arabic c (hall c hc)]
  · simp only [is_urdu_script, urduBody, if_neg h, catchFalse]

/-- C3: script classification is "no script" on empty or whitespace-only
input, Devanagari as soon as one Devanagari code point is present anywhere,
and Arabic-script when no Devanagari code point is present but at least one
code point lies in one of the five Arabic blocks; detection is
per-character presence. -/
theorem C3_classify_script_spec (s : String) :
    (s.data.all pyIsSpace = true → classify_script s = ScriptTag.noScript) ∧
    (s.data.any isDevanagariChar = true → classify_script s = ScriptTag.devanagari) ∧
    (s.data.any isDevanagariChar = false → s.data.any isArabicChar = true →
      classify_script s = ScriptTag.arabic) := by
  refine ⟨?_, ?_, ?_⟩
  · intro h
    simp only [List.all_eq_true] at h
    have hdev : s.data.any isDevanagariChar = false := by
      simp only [List.any_eq_false]
      intro c hc
      simp [pyIsSpace_not_devanagari c (h c hc)]
    have harb : s.data.any isArabicChar = false := by
      simp only [List.any_eq_false]
      intro c hc
      simp [pyIsSpace_not_arabic c (h c hc)]
    simp [classify_script, is_hindi_input_eq_any, is_urdu_script_eq_any, hdev, harb]
  · intro h
    simp [classify_script, is_hindi_input_eq_any, h]
  · intro h1 h2
    simp [classify_script, is_hindi_input_eq_any, is_urdu_script_eq_any, h1, h2]

/-- C3 witness: concrete evaluations — a whitespace-only string classifies
as no script, Devanagari wins over surrounding Latin text, and an
Arabic-only string with Latin context classifies as Arabic-script. -/
theorem C3_classify_script_spec_witness :
    classify_script " " = ScriptTag.noScript ∧
    classify_script "abआcd" = ScriptTag.devanagari ∧
    classify_script "abسcd" = ScriptTag.arabic :=
  ⟨(C3_classify_script_spec " ").1 (by decide),
   (C3_classify_script_spec "abआcd").2.1 (by decide),
   (C3_classify_script_spec "abسcd").2.2 (by decide) (by decide)⟩

/-- C4: the required output script is a pure function of the inbound
text's script classification — the decision factors through
`classify_script` via the fixed table `routeOfTag`, which sends Devanagari
to Arabic-script output and every other tag (including the empty-input tag)
to Latin-script output. -/
theorem C4_required_output_script_pure (s : String) :
    required_output_script s = routeOfTag (classify_script s) := by
  by_cases h : is_hindi_input s = true
  · simp [required_output_script, should_respond_in_urdu, classify_script, h, routeOfTag]
  · simp only [Bool.not_eq_true] at h
    by_cases h2 : is_urdu_script s = true
    · simp [required_output_script, should_respond_in_urdu, classify_script, h, h2, routeOfTag]
    · simp only [Bool.not_eq_true] at h2
      simp [required_output_script, should_respond_in_urdu, classify_script, h, h2, routeOfTag]

/-- C4 is hypothesis-free; these spec scenarios follow from it at concrete
inputs and are recorded as a plain theorem. -/
theorem required_output_script_scenarios :
    required_output_script "आप कैसे हैं?" = OutputScript.arabicScript ∧
    required_output_script "Hello" = OutputScript.latinScript ∧
    classify_script "" = ScriptTag.noScript ∧
    required_output_script "" = OutputScript.latinScript := by
  refine ⟨by decide, by decide, by decide, by decide⟩

/-- The fixed safe fallback phrase of `Assistant.say`
(src/voiceai.py line 125). -/
def fallback_msg : String := "I\x27m having trouble responding. Please try again."

/-- One invocation of the underlying speak primitive, with the keyword
flags it was passed. -/
structure SpeakCall where
  message : String
  allow_interruptions : Bool
  add_to_chat_ctx : Bool
deriving DecidableEq, Repr

/-- The language indicator `Assistant.say` computes for its audit log
(src/voiceai.py lines 108-117). -/
def lang_indicator (message : String) : String :=
  if is_urdu_script message then "Urdu"
  else if is_hindi_input message then "English (from Hindi input)"
  else "English"

/-- `Assistant.say` (src/voiceai.py lines 105-130), with the underlying
primitive `super().say` passed in as the oracle `prim`, which may return an
acknowledgement or raise. The first component is what the caller of `say`
observes (`Except.error` would mean an exception propagated; `Except.ok
none` is Python's implicit `None` return after the bare `except: pass`);
the second component is the sequence of calls made to the primitive. -/
def Assistant.say {A : Type} (prim : String → Bool → Bool → Except String A)
    (message : String) (allow_interruptions add_to_chat_ctx : Bool) :
    Except String (Option A) × List SpeakCall :=
  let _indicator := lang_indicator message
  match prim message allow_interruptions add_to_chat_ctx with
  | Except.ok ack =>
      (Except.ok (some ack),
       [⟨message, allow_interruptions, add_to_chat_ctx⟩])
  | Except.error _ =>
      match prim fallback_msg allow_interruptions add_to_chat_ctx with
      | Except.ok ack =>
          (Except.ok (some ack),
           [⟨message, allow_interruptions, add_to_chat_ctx⟩,
            ⟨fallback_msg, allow_interruptions, add_to_chat_ctx⟩])
      | Except.error _ =>
          (Except.ok none,
           [⟨message, allow_interruptions, add_to_chat_ctx⟩,
            ⟨fallback_msg, allow_interruptions, add_to_chat_ctx⟩])

/-- C1: for every message and every failure behaviour of the underlying
speak primitive — including the primitive failing again on the fallback
phrase — the wrapped `Assistant.say` returns normally to its caller: its
observable outcome is always `Except.ok`, never a propagated exception. -/
theorem C1_say_never_raises {A : Type} (prim : String → Bool → Bool → Except String A)
    (message : String) (ai ac : Bool) :
    ∃ v, (Assistant.say prim message ai ac).1 = Except.ok v := by
  simp only [Assistant.say]
  cases prim message ai ac with
  | ok a => exact ⟨some a, rfl⟩
  | error e =>
    cases prim fallback_msg ai ac with
    | ok a => exact ⟨some a, rfl⟩
    | error e2 => exact ⟨none, rfl⟩

/-- C8: when the primitive fails on the real message, exactly one recovery
call is made — the fixed fallback phrase with the same
`allow_interruptions` / `add_to_chat_ctx` flags — and when that recovery
succeeds the caller receives the fallback acknowledgement with no
exception. -/
theorem C8_say_single_recovery {A : Type}
    (prim : String → Bool → Bool → Except String A)
    (message : String) (ai ac : Bool) (e : String) (a : A)
    (h1 : prim message ai ac = Except.error e)
    (h2 : prim fallback_msg ai ac = Except.ok a) :
    Assistant.say prim message ai ac =
      (Except.ok (some a), [⟨message, ai, ac⟩, ⟨fallback_msg, ai, ac⟩]) := by
  simp only [Assistant.say, h1, h2]

/-- A concrete primitive that fails on the empty message and acknowledges
everything else. -/
def primFailEmpty : String → Bool → Bool → Except String Nat :=
  fun m _ _ => if m.data.isEmpty then Except.error "speak failed" else Except.ok 7

/-- C8 witness: on the failing empty message the fallback acknowledgement
7 is returned and exactly the two expected primitive calls are made. -/
theorem C8_say_single_recovery_witness :
    Assistant.say primFailEmpty "" true true =
      (Except.ok (some 7), [⟨"", true, true⟩, ⟨fallback_msg, true, true⟩]) :=
  C8_say_single_recovery primFailEmpty "" true true "speak failed" 7 rfl rfl

/-- C9: both detection predicates are the error-catching wrapper
`catchFalse` applied to their try-block bodies: an exception value raised
by a body is caught and mapped to the negative classification `false`, a
normal boolean is returned unchanged, so the predicates are total
Bool-valued functions that never propagate an error. -/
theorem C9_detection_catches_errors :
    (∀ (r : Except String Bool) (e : String), r = Except.error e → catchFalse r = false) ∧
    (∀ (r : Except String Bool) (b : Bool), r = Except.ok b → catchFalse r = b) ∧
    (∀ s, is_hindi_input s = catchFalse (hindiBody s) ∧
          is_urdu_script s = catchFalse (urduBody s)) := by
  refine ⟨?_, ?_, ?_⟩
  · intro r e h
    rw [h]
    rfl
  · intro r b h
    rw [h]
    rfl
  · intro s
    exact ⟨rfl, rfl⟩

/-- C9 witness: a raised detection error yields `false`, a normal result is
passed through. -/
theorem C9_detection_catches_errors_witness :
    catchFalse (Except.error "detection error") = false ∧
    catchFalse (Except.ok true) = true :=
  ⟨C9_detection_catches_errors.1 (Except.error "detection error") "detection error" rfl,
   C9_detection_catches_errors.2.1 (Except.ok true) true rfl⟩

/-- The fixed instruction text passed to the base agent constructor
(src/voiceai.py lines 25-60). -/
def instructions_text : String :=
  "You are a helpful multilingual voice AI assistant. \n            You understand English and Hindi/Urdu speech input.\n            \n            CRITICAL LANGUAGE HANDLING RULES:\n            1. If the user speaks in English, respond ONLY in English\n            2. If the user speaks in Urdu (which appears as Hindi text), respond ONLY in Urdu script (Arabic script)\n            3. Choose ONE language per response - never mix languages\n            4. ALWAYS acknowledge what the user said and provide a helpful response\n        \n            \n            LANGUAGE DETECTION:\n            - English input = English text in Latin script\n            - Urdu input = Hindi text in Devanagari script (आप, कैसे, etc.) - this represents Urdu speech transcribed as Hindi\n            \n            URDU RESPONSE GUIDELINES (when input is Hindi script):\n            - Write in proper Urdu script using Arabic alphabet\n            - Use Pakistani Urdu vocabulary and expressions naturally\n            - Use respectful forms like \"آپ\" (aap) \n            - Use Pakistani Urdu expressions like \"بالکل\" (bilkul), \"ضرور\" (zaroor), \"ماشاءاللہ\" (mashallah)\n            - Use \"میں\" (main) for \"I\"\n            - Use respectful forms and Pakistani cultural references\n            - Keep responses natural and conversational\n            - Always use short, clear sentences for better TTS pronunciation\n            \n            Examples:\n            - User (English): \"How are you?\" → Response (English): \"I\x27m doing great! How can I help you today?\"\n            - User (Hindi): \"आप कैसे हैं?\" → Response (Urdu): \"میں بالکل ٹھیک ہوں! آپ کیسے ہیں؟ کیا مدد چاہیے؟\"\n            - User (Hindi): \"क्या हाल है?\" → Response (Urdu): \"سب ٹھیک ہے! آپ بتائیے کیا کام ہے؟\"\n            - User (English): \"Hello\" → Response (English): \"Hello! How can I assist you today?\"\n            - User (Hindi): \"नमस्ते\" → Response (Urdu): \"آداب! میں آپ کی کیا مدد کر سکتا ہوں؟\"\n            \n            IMPORTANT: \n            - Hindi script input (Devanagari) = User spoke Urdu → Respond in Urdu script\n            - English script input = User spoke English → Respond in English\n            - Be natural, helpful, and culturally appropriate for Pakistani Urdu speakers\n            - Always speak in short sentences for optimal TTS performance"

/-- Assistant state: the fields written by `Assistant.__init__`
(src/voiceai.py lines 24-63) — the instruction text handed to the base
constructor plus the two fields initialized on `self`. -/
structure Assistant where
  instructions : String
  user_language_preference : String
  conversation_history : List String

/-- `Assistant.__init__`: instructions from the fixed text,
`user_language_preference` defaulted to "english",
`conversation_history` empty. -/
def Assistant.new : Assistant :=
  ⟨instructions_text, "english", []⟩

/-- Method form of `_is_hindi_input`: reads the input, performs no
assignment to `self`, so the state passes through unchanged. -/
def Assistant.isHindiM (a : Assistant) (s : String) : Bool × Assistant :=
  (is_hindi_input s, a)

/-- Method form of `_is_urdu_script`. -/
def Assistant.isUrduM (a : Assistant) (s : String) : Bool × Assistant :=
  (is_urdu_script s, a)

/-- Method form of `_should_respond_in_urdu`. -/
def Assistant.shouldRespondInUrduM (a : Assistant) (s : String) : Bool × Assistant :=
  (should_respond_in_urdu s, a)

/-- Method form of `say`: the wrapper logs and delegates to the primitive
but assigns no `self` field. -/
def Assistant.sayM {A : Type} (a : Assistant)
    (prim : String → Bool → Bool → Except String A)
    (message : String) (ai ac : Bool) :
    (Except String (Option A) × List SpeakCall) × Assistant :=
  (Assistant.say prim message ai ac, a)

/-- One per-turn operation on the assistant. -/
inductive TurnOp (A : Type) where
  | detectHindi (s : String)
  | detectUrdu (s : String)
  | decideUrdu (s : String)
  | speak (prim : String → Bool → Bool → Except String A)
      (message : String) (ai ac : Bool)

/-- State effect of one per-turn operation. -/
def applyOp {A : Type} (a : Assistant) : TurnOp A → Assistant
  | TurnOp.detectHindi s => (a.isHindiM s).2
  | TurnOp.detectUrdu s => (a.isUrduM s).2
  | TurnOp.decideUrdu s => (a.shouldRespondInUrduM s).2
  | TurnOp.speak prim m ai ac => (a.sayM prim m ai ac).2

/-- Run a sequence of per-turn operations from a starting state. -/
def runOps {A : Type} (a : Assistant) : List (TurnOp A) → Assistant
  | [] => a
  | op :: ops => runOps (applyOp a op) ops

theorem applyOp_id {A : Type} (a : Assistant) (op : TurnOp A) :
    applyOp a op = a := by
  cases op <;> rfl

/-- C10: no per-turn operation mutates assistant state — after any sequence
of script classifications, routing decisions and wrapped speak calls, the
fields `user_language_preference`, `conversation_history` and
`instructions` still hold their constructor values. -/
theorem C10_no_turn_mutation {A : Type} (ops : List (TurnOp A)) :
    (runOps Assistant.new ops).user_language_preference = "english" ∧
    (runOps Assistant.new ops).conversation_history = [] ∧
    (runOps Assistant.new ops).instructions = instructions_text := by
  have hrun : ∀ (a : Assistant) (l : List (TurnOp A)), runOps a l = a := by
    intro a l
    induction l generalizing a with
    | nil => rfl
    | cons op t ih => rw [runOps, applyOp_id, ih]
  rw [hrun]
  exact ⟨rfl, rfl, rfl⟩

/-- The four capability slots of the bootstrap sequencer, in the order the
source attempts them (src/voiceai.py lines 163-240). -/
inductive Slot where
  | stt
  | llm
  | tts
  | vad
deriving DecidableEq, Repr

/-- The concrete configuration attempts: primary and fallback backend for
each slot. -/
inductive AttemptId where
  | sttGroq
  | sttDeepgram
  | llmQwen
  | llmLlama
  | ttsUrduVoice
  | ttsEnglishVoice
  | vadTuned
  | vadDefault
deriving DecidableEq, Repr

/-- Primary attempt of each slot. -/
def primOf : Slot → AttemptId
  | Slot.stt => AttemptId.sttGroq
  | Slot.llm => AttemptId.llmQwen
  | Slot.tts => AttemptId.ttsUrduVoice
  | Slot.vad => AttemptId.vadTuned

/-- Fallback attempt of each slot. -/
def fbOf : Slot → AttemptId
  | Slot.stt => AttemptId.sttDeepgram
  | Slot.llm => AttemptId.llmLlama
  | Slot.tts => AttemptId.ttsEnglishVoice
  | Slot.vad => AttemptId.vadDefault

/-- Position of a slot in the fixed bootstrap order STT, LLM, TTS, VAD. -/
def slotIdx : Slot → Nat
  | Slot.stt => 0
  | Slot.llm => 1
  | Slot.tts => 2
  | Slot.vad => 3

/-- Observable bootstrap events: log lines, construction attempts, session
construction/start and the awaited greeting with the timeout passed to it. -/
inductive Ev where
  | info (msg : String)
  | warn (msg : String)
  | error (msg : String)
  | attempt (a : AttemptId) (ok : Bool)
  | sessionCreated
  | sessionStarted
  | greetingAwait (t : Nat)
deriving DecidableEq, Repr

def startMsg : String := "Starting agent initialization..."

def assistantMsg : String := "Assistant created successfully"

def azureCredMsg : String := "Azure Speech credentials not found in environment variables"

def groqCredMsg : String := "Groq API key not found in environment variables"

def deepgramCredMsg : String := "Deepgram API key not found in environment variables"

def sessionCreatingMsg : String := "Session created, starting..."

def sessionStartedMsg : String := "Session started successfully - Hindi input → Urdu script output pipeline"

def greetingTimeoutMsg : String := "Initial greeting generation timed out"

def entrypointErrPrefix : String := "Entrypoint error: "

/-- The instruction text of the initial greeting (src/voiceai.py line 266). -/
def greetInstructions : String :=
  "Greet the user warmly in English, mentioning that you can speak both English and Urdu, and ask how you can help them today."

/-- The timeout passed to `asyncio.wait_for` around the initial greeting
(src/voiceai.py line 268, `timeout=30.0` time units). -/
def greeting_timeout : Nat := 30

/-- Success log line of each slot's primary attempt. -/
def slotOkPrimaryMsg : Slot → String
  | Slot.stt => "STT initialized"
  | Slot.llm => "LLM initialized with Urdu-optimized model"
  | Slot.tts => "TTS initialized with Hindi voice"
  | Slot.vad => "VAD initialized with multilingual settings"

/-- Success log line of each slot's fallback attempt. -/
def slotOkFallbackMsg : Slot → String
  | Slot.stt => "STT initialized"
  | Slot.llm => "LLM initialized with fallback model"
  | Slot.tts => "TTS initialized with fallback English voice"
  | Slot.vad => "VAD initialized with default settings"

/-- Log emitted when a slot's primary attempt raises: the source logs a
warning for LLM and an error for TTS, and nothing for STT and VAD
(src/voiceai.py lines 172, 193, 212, 233). -/
def primFailLog : Slot → String → List Ev
  | Slot.stt, _ => []
  | Slot.llm, e => [Ev.warn ("Urdu-optimized LLM failed, trying fallback: " ++ e)]
  | Slot.tts, e => [Ev.error ("TTS initialization failed: " ++ e)]
  | Slot.vad, _ => []

/-- Fatal-error message prefix of each slot when its whole chain fails
(src/voiceai.py lines 184, 198, 223, 239). -/
def fatalPrefix : Slot → String
  | Slot.stt => "STT initialization failed: "
  | Slot.llm => "LLM initialization failed completely: "
  | Slot.tts => "TTS fallback failed: "
  | Slot.vad => "VAD initialization failed completely: "

/-- One slot's try/except fallback chain (src/voiceai.py lines 163-240):
attempt the primary backend; on an exception attempt the fallback backend;
on a second exception log the slot's fatal error and fail the slot. The
oracle `construct` is the external backend constructor. -/
def initSlot {H : Type} (construct : AttemptId → Except String H) (s : Slot) :
    Except String H × List Ev :=
  match construct (primOf s) with
  | Except.ok h =>
      (Except.ok h, [Ev.attempt (primOf s) true, Ev.info (slotOkPrimaryMsg s)])
  | Except.error e =>
      match construct (fbOf s) with
      | Except.ok h =>
          (Except.ok h,
           Ev.attempt (primOf s) false :: primFailLog s e ++
             [Ev.attempt (fbOf s) true, Ev.info (slotOkFallbackMsg s)])
      | Except.error e2 =>
          (Except.error e2,
           Ev.attempt (primOf s) false :: primFailLog s e ++
             [Ev.attempt (fbOf s) false, Ev.error (fatalPrefix s ++ e2)])

/-- The environment variables `entrypoint` reads
(src/voiceai.py lines 142-145); `none` models an unset variable. -/
structure Env where
  AZURE_SPEECH_KEY : Option String
  AZURE_SPEECH_REGION : Option String
  GROQ_API_KEY : Option String
  DEEPGRAM_API_KEY : Option String

/-- Python truthiness of `os.getenv(...)`: falsy when unset or empty. -/
def pyTruthy : Option String → Bool
  | none => false
  | some s => !s.data.isEmpty

/-- All three credential preconditions hold (Azure key and region, Groq
key, Deepgram key). -/
def credsOk (env : Env) : Bool :=
  pyTruthy env.AZURE_SPEECH_KEY && pyTruthy env.AZURE_SPEECH_REGION &&
  pyTruthy env.GROQ_API_KEY && pyTruthy env.DEEPGRAM_API_KEY

/-- Outcome of the awaited initial greeting: completed within the timeout,
timed out (`asyncio.TimeoutError`), or raised some other exception. -/
inductive GreetOutcome where
  | done
  | timedOut
  | failed (e : String)

/-- The external runtime behaviour `entrypoint` is exposed to: the backend
constructors, the session start call and the greeting generation (called
with the greeting instructions and the timeout bound). -/
structure Runtime (H : Type) where
  construct : AttemptId → Except String H
  sessionStart : Except String Unit
  generateReply : String → Nat → GreetOutcome

/-- The session object: one live handle per capability slot
(src/voiceai.py lines 242-248). -/
structure AgentSession (H : Type) where
  stt : H
  llm : H
  tts : H
  vad : H
deriving DecidableEq, Repr

/-- Observable outcome of `entrypoint`: an early `return` after a missing
credential, an early `return` after an exhausted slot, a running session,
or an exception re-raised by the outer handler. -/
inductive EpResult (H : Type) where
  | credAborted (msg : String)
  | slotAborted (s : Slot)
  | running (session : AgentSession H)
  | raised (e : String)
deriving DecidableEq, Repr

/-- Tail of `entrypoint` after all four handles are live
(src/voiceai.py lines 242-275): construct the session, start it, then
await the greeting bounded by `greeting_timeout`; a timeout is logged as a
warning and the function keeps running, any other greeting failure hits
the outer handler which logs and re-raises. -/
def afterBootstrap {H : Type} (rt : Runtime H) (hstt hllm htts hvad : H)
    (evs : List Ev) : EpResult H × List Ev :=
  let evs1 := evs ++ [Ev.sessionCreated, Ev.info sessionCreatingMsg]
  match rt.sessionStart with
  | Except.error e =>
      (EpResult.raised e, evs1 ++ [Ev.error (entrypointErrPrefix ++ e)])
  | Except.ok _ =>
      let evs2 := evs1 ++ [Ev.sessionStarted, Ev.info sessionStartedMsg,
        Ev.greetingAwait greeting_timeout]
      match rt.generateReply greetInstructions greeting_timeout with
      | GreetOutcome.done =>
          (EpResult.running ⟨hstt, hllm, htts, hvad⟩, evs2)
      | GreetOutcome.timedOut =>
          (EpResult.running ⟨hstt, hllm, htts, hvad⟩,
           evs2 ++ [Ev.warn greetingTimeoutMsg])
      | GreetOutcome.failed e =>
          (EpResult.raised e, evs2 ++ [Ev.error (entrypointErrPrefix ++ e)])

/-- The four slot chains in declared order; the first exhausted slot makes
`entrypoint` return before any session is constructed. -/
def bootSlots {H : Type} (rt : Runtime H) (evs : List Ev) : EpResult H × List Ev :=
  match initSlot rt.construct Slot.stt with
  | (Except.error _, t1) => (EpResult.slotAborted Slot.stt, evs ++ t1)
  | (Except.ok hstt, t1) =>
    match initSlot rt.construct Slot.llm with
    | (Except.error _, t2) => (EpResult.slotAborted Slot.llm, evs ++ t1 ++ t2)
    | (Except.ok hllm, t2) =>
      match initSlot rt.construct Slot.tts with
      | (Except.error _, t3) =>
          (EpResult.slotAborted Slot.tts, evs ++ t1 ++ t2 ++ t3)
      | (Except.ok htts, t3) =>
        match initSlot rt.construct Slot.vad with
        | (Except.error _, t4) =>
            (EpResult.slotAborted Slot.vad, evs ++ t1 ++ t2 ++ t3 ++ t4)
        | (Except.ok hvad, t4) =>
            afterBootstrap rt hstt hllm htts hvad (evs ++ t1 ++ t2 ++ t3 ++ t4)

/-- `entrypoint` (src/voiceai.py lines 137-275): credential preconditions
first — each missing credential is reported with its own message and ends
the function before any construction attempt — then the four fallback
chains, then session creation, start and greeting. -/
def entrypoint {H : Type} (env : Env) (rt : Runtime H) : EpResult H × List Ev :=
  if !pyTruthy env.AZURE_SPEECH_KEY || !pyTruthy env.AZURE_SPEECH_REGION then
    (EpResult.credAborted azureCredMsg, [Ev.info startMsg, Ev.error azureCredMsg])
  else if !pyTruthy env.GROQ_API_KEY then
    (EpResult.credAborted groqCredMsg, [Ev.info startMsg, Ev.error groqCredMsg])
  else if !pyTruthy env.DEEPGRAM_API_KEY then
    (EpResult.credAborted deepgramCredMsg, [Ev.info startMsg, Ev.error deepgramCredMsg])
  else
    bootSlots rt [Ev.info startMsg, Ev.info assistantMsg]

/-- Whether an `Except` result is a success. -/
def exceptOk {ε α : Type} : Except ε α → Bool
  | Except.ok _ => true
  | Except.error _ => false

theorem exceptOk_false {ε α : Type} {r : Except ε α} (h : exceptOk r = false) :
    ∃ e, r = Except.error e := by
  cases r with
  | ok a => exact absurd h (by simp [exceptOk])
  | error e => exact ⟨e, rfl⟩

theorem exceptOk_true {ε α : Type} {r : Except ε α} (h : exceptOk r = true) :
    ∃ a, r = Except.ok a := by
  cases r with
  | ok a => exact ⟨a, rfl⟩
  | error e => exact absurd h (by simp [exceptOk])

theorem fbOf_ne_primOf (s : Slot) : fbOf s ≠ primOf s := by
  cases s <;> decide

theorem sessionCreated_notin_primFailLog (s : Slot) (e : String) :
    Ev.sessionCreated ∉ primFailLog s e := by
  cases s <;> simp [primFailLog]

theorem sessionCreated_notin_initSlot {H : Type}
    (con : AttemptId → Except String H) (s : Slot) :
    Ev.sessionCreated ∉ (initSlot con s).2 := by
  unfold initSlot
  cases con (primOf s) with
  | ok h => simp
  | error e =>
    cases con (fbOf s) with
    | ok h => simp [sessionCreated_notin_primFailLog]
    | error e2 => simp [sessionCreated_notin_primFailLog]

theorem initSlot_error_inv {H : Type} (con : AttemptId → Except String H) (s : Slot)
    (h : exceptOk (initSlot con s).1 = false) :
    ∃ e1 e2, con (primOf s) = Except.error e1 ∧ con (fbOf s) = Except.error e2 := by
  unfold initSlot at h
  cases h1 : con (primOf s) with
  | ok a => rw [h1] at h; exact absurd h (by simp [exceptOk])
  | error e1 =>
    cases h2 : con (fbOf s) with
    | ok a => rw [h1, h2] at h; exact absurd h (by simp [exceptOk])
    | error e2 => exact ⟨e1, e2, rfl, rfl⟩

theorem initSlot_fail_fatal {H : Type} (con : AttemptId → Except String H) (s : Slot)
    (h : exceptOk (initSlot con s).1 = false) :
    ∃ e, (initSlot con s).1 = Except.error e ∧
      Ev.error (fatalPrefix s ++ e) ∈ (initSlot con s).2 := by
  rcases initSlot_error_inv con s h with ⟨e1, e2, h1, h2⟩
  refine ⟨e2, ?_⟩
  unfold initSlot
  rw [h1, h2]
  refine ⟨rfl, ?_⟩
  simp

/-- C5: within a slot's fallback chain, the first successful attempt
provides the handle the slot binds, and no further attempt is made for the
slot after that success — primary success binds the primary's handle and
skips the fallback entirely, primary failure followed by fallback success
binds the fallback's handle. -/
theorem C5_first_success_wins {H : Type} (con : AttemptId → Except String H) (s : Slot) :
    (∀ h, con (primOf s) = Except.ok h →
      initSlot con s =
        (Except.ok h, [Ev.attempt (primOf s) true, Ev.info (slotOkPrimaryMsg s)])) ∧
    (∀ h, con (primOf s) = Except.ok h →
      ∀ b, Ev.attempt (fbOf s) b ∉ (initSlot con s).2) ∧
    (∀ e h, con (primOf s) = Except.error e → con (fbOf s) = Except.ok h →
      initSlot con s =
        (Except.ok h,
         Ev.attempt (primOf s) false :: primFailLog s e ++
           [Ev.attempt (fbOf s) true, Ev.info (slotOkFallbackMsg s)])) := by
  refine ⟨?_, ?_, ?_⟩
  · intro h hp
    unfold initSlot
    rw [hp]
  · intro h hp b
    unfold initSlot
    rw [hp]
    simp [fbOf_ne_primOf s]
  · intro e h hp hf
    unfold initSlot
    rw [hp, hf]

/-- A constructor oracle whose every attempt succeeds with handle 1. -/
def conAllOk : AttemptId → Except String Nat :=
  fun _ => Except.ok 1

/-- A constructor oracle whose STT primary raises and whose other attempts
succeed with handle 2. -/
def conSttPrimaryFails : AttemptId → Except String Nat :=
  fun a => if a = AttemptId.sttGroq then Except.error "boom" else Except.ok 2

/-- C5 witness: with an all-succeeding oracle the STT slot binds the
primary handle and never touches the fallback; with a failing STT primary
the slot binds the fallback handle. -/
theorem C5_first_success_wins_witness :
    initSlot conAllOk Slot.stt =
      (Except.ok 1, [Ev.attempt (primOf Slot.stt) true,
        Ev.info (slotOkPrimaryMsg Slot.stt)]) ∧
    (Ev.attempt (fbOf Slot.stt) true ∉ (initSlot conAllOk Slot.stt).2) ∧
    initSlot conSttPrimaryFails Slot.stt =
      (Except.ok 2,
       Ev.attempt (primOf Slot.stt) false :: primFailLog Slot.stt "boom" ++
         [Ev.attempt (fbOf Slot.stt) true, Ev.info (slotOkFallbackMsg Slot.stt)]) :=
  ⟨(C5_first_success_wins conAllOk Slot.stt).1 1 rfl,
   (C5_first_success_wins conAllOk Slot.stt).2.1 1 rfl true,
   (C5_first_success_wins conSttPrimaryFails Slot.stt).2.2 "boom" 2 rfl rfl⟩

/-- C6: each of the three credential preconditions is reported with its own
message — the Azure pair, the Groq key and the Deepgram key each abort with
their slot-specific error — and whenever any credential is missing the
function returns before a single construction attempt is made. -/
theorem C6_credential_preconditions {H : Type} (env : Env) (rt : Runtime H) :
    ((pyTruthy env.AZURE_SPEECH_KEY && pyTruthy env.AZURE_SPEECH_REGION) = false →
      entrypoint env rt =
        (EpResult.credAborted azureCredMsg, [Ev.info startMsg, Ev.error azureCredMsg])) ∧
    (pyTruthy env.AZURE_SPEECH_KEY = true → pyTruthy env.AZURE_SPEECH_REGION = true →
      pyTruthy env.GROQ_API_KEY = false →
      entrypoint env rt =
        (EpResult.credAborted groqCredMsg, [Ev.info startMsg, Ev.error groqCredMsg])) ∧
    (pyTruthy env.AZURE_SPEECH_KEY = true → pyTruthy env.AZURE_SPEECH_REGION = true →
      pyTruthy env.GROQ_API_KEY = true → pyTruthy env.DEEPGRAM_API_KEY = false →
      entrypoint env rt =
        (EpResult.credAborted deepgramCredMsg,
         [Ev.info startMsg, Ev.error deepgramCredMsg])) ∧
    (credsOk env = false → ∀ a b, Ev.attempt a b ∉ (entrypoint env rt).2) := by
  refine ⟨?_, ?_, ?_, ?_⟩
  · intro h
    cases ha : pyTruthy env.AZURE_SPEECH_KEY <;>
      cases hb : pyTruthy env.AZURE_SPEECH_REGION <;>
      simp_all [entrypoint]
  · intro ha hb hg
    simp [entrypoint, ha, hb, hg]
  · intro ha hb hg hd
    simp [entrypoint, ha, hb, hg, hd]
  · intro h a b
    cases ha : pyTruthy env.AZURE_SPEECH_KEY <;>
      cases hb : pyTruthy env.AZURE_SPEECH_REGION <;>
      cases hg : pyTruthy env.GROQ_API_KEY <;>
      cases hd : pyTruthy env.DEEPGRAM_API_KEY <;>
      simp_all [entrypoint, credsOk]

/-- An environment with every credential present. -/
def envAll : Env := ⟨some "azkey", some "azregion", some "gqkey", some "dgkey"⟩

/-- An environment whose Azure speech key is unset. -/
def envNoAzure : Env := ⟨none, some "azregion", some "gqkey", some "dgkey"⟩

/-- A runtime whose every external call succeeds. -/
def rtAllOk : Runtime Nat :=
  ⟨fun _ => Except.ok 0, Except.ok (), fun _ _ => GreetOutcome.done⟩

/-- C6 witness: with the Azure key unset the entrypoint aborts with the
Azure-specific message and makes no construction attempt. -/
theorem C6_credential_preconditions_witness :
    entrypoint envNoAzure rtAllOk =
      (EpResult.credAborted azureCredMsg, [Ev.info startMsg, Ev.error azureCredMsg]) ∧
    (Ev.attempt AttemptId.sttGroq true ∉ (entrypoint envNoAzure rtAllOk).2) :=
  ⟨(C6_credential_preconditions envNoAzure rtAllOk).1 rfl,
   (C6_credential_preconditions envNoAzure rtAllOk).2.2.2 (by rfl)
     AttemptId.sttGroq true⟩

theorem notin_append {α : Type} {a : α} {l1 l2 : List α}
    (h1 : a ∉ l1) (h2 : a ∉ l2) : a ∉ l1 ++ l2 := by
  intro h
  rcases List.mem_append.mp h with h | h
  · exact h1 h
  · exact h2 h

theorem pair_eta_fst {A B : Type} (p : A × B) {x : A} (h : p.1 = x) :
    p = (x, p.2) := by
  rw [← h]

theorem bootSlots_no_session {H : Type} (rt : Runtime H) (evs : List Ev) (s : Slot)
    (hs : exceptOk (initSlot rt.construct s).1 = false)
    (hevs : Ev.sessionCreated ∉ evs) :
    Ev.sessionCreated ∉ (bootSlots rt evs).2 ∧
    ∀ sess, (bootSlots rt evs).1 ≠ EpResult.running sess := by
  have m1 := sessionCreated_notin_initSlot rt.construct Slot.stt
  have m2 := sessionCreated_notin_initSlot rt.construct Slot.llm
  have m3 := sessionCreated_notin_initSlot rt.construct Slot.tts
  have m4 := sessionCreated_notin_initSlot rt.construct Slot.vad
  unfold bootSlots
  split
  next e t1 heq1 =>
    rw [heq1] at m1
    exact ⟨notin_append hevs m1, fun sess => nofun⟩
  next hstt t1 heq1 =>
    rw [heq1] at m1
    split
    next e t2 heq2 =>
      rw [heq2] at m2
      exact ⟨notin_append (notin_append hevs m1) m2, fun sess => nofun⟩
    next hllm t2 heq2 =>
      rw [heq2] at m2
      split
      next e t3 heq3 =>
        rw [heq3] at m3
        exact ⟨notin_append (notin_append (notin_append hevs m1) m2) m3,
          fun sess => nofun⟩
      next htts t3 heq3 =>
        rw [heq3] at m3
        split
        next e t4 heq4 =>
          rw [heq4] at m4
          exact ⟨notin_append (notin_append (notin_append (notin_append hevs m1) m2) m3) m4,
            fun sess => nofun⟩
        next hvad t4 heq4 =>
          exfalso
          cases s with
          | stt => rw [heq1] at hs; simp [exceptOk] at hs
          | llm => rw [heq2] at hs; simp [exceptOk] at hs
          | tts => rw [heq3] at hs; simp [exceptOk] at hs
          | vad => rw [heq4] at hs; simp [exceptOk] at hs

theorem bootSlots_aborts_at {H : Type} (rt : Runtime H) (evs : List Ev) (s : Slot)
    (hfirst : ∀ t, slotIdx t < slotIdx s → exceptOk (initSlot rt.construct t).1 = true)
    (hs : exceptOk (initSlot rt.construct s).1 = false) :
    (bootSlots rt evs).1 = EpResult.slotAborted s ∧
    ∃ e, Ev.error (fatalPrefix s ++ e) ∈ (bootSlots rt evs).2 := by
  rcases initSlot_fail_fatal rt.construct s hs with ⟨e, hse, hmem⟩
  cases s with
  | stt =>
    have hp := pair_eta_fst (initSlot rt.construct Slot.stt) hse
    unfold bootSlots
    rw [hp]
    exact ⟨rfl, e, List.mem_append.mpr (Or.inr hmem)⟩
  | llm =>
    rcases exceptOk_true (hfirst Slot.stt (by decide)) with ⟨a1, h1⟩
    have hp1 := pair_eta_fst (initSlot rt.construct Slot.stt) h1
    have hp := pair_eta_fst (initSlot rt.construct Slot.llm) hse
    unfold bootSlots
    rw [hp1, hp]
    exact ⟨rfl, e, List.mem_append.mpr (Or.inr hmem)⟩
  | tts =>
    rcases exceptOk_true (hfirst Slot.stt (by decide)) with ⟨a1, h1⟩
    rcases exceptOk_true (hfirst Slot.llm (by decide)) with ⟨a2, h2⟩
    have hp1 := pair_eta_fst (initSlot rt.construct Slot.stt) h1
    have hp2 := pair_eta_fst (initSlot rt.construct Slot.llm) h2
    have hp := pair_eta_fst (initSlot rt.construct Slot.tts) hse
    unfold bootSlots
    rw [hp1, hp2, hp]
    exact ⟨rfl, e, List.mem_append.mpr (Or.inr hmem)⟩
  | vad =>
    rcases exceptOk_true (hfirst Slot.stt (by decide)) with ⟨a1, h1⟩
    rcases exceptOk_true (hfirst Slot.llm (by decide)) with ⟨a2, h2⟩
    rcases exceptOk_true (hfirst Slot.tts (by decide)) with ⟨a3, h3⟩
    have hp1 := pair_eta_fst (initSlot rt.construct Slot.stt) h1
    have hp2 := pair_eta_fst (initSlot rt.construct Slot.llm) h2
    have hp3 := pair_eta_fst (initSlot rt.construct Slot.tts) h3
    have hp := pair_eta_fst (initSlot rt.construct Slot.vad) hse
    unfold bootSlots
    rw [hp1, hp2, hp3, hp]
    exact ⟨rfl, e, List.mem_append.mpr (Or.inr hmem)⟩

/-- C2: for any slot whose primary and fallback constructions both fail,
no run of `entrypoint` ever constructs a session or reaches the running
state; and when the credentials are present and every earlier slot
succeeds, the run ends as that slot's abort with the slot-specific fatal
error logged. -/
theorem C2_exhausted_slot_aborts {H : Type} (env : Env) (rt : Runtime H) (s : Slot)
    (h1 : exceptOk (rt.construct (primOf s)) = false)
    (h2 : exceptOk (rt.construct (fbOf s)) = false) :
    (Ev.sessionCreated ∉ (entrypoint env rt).2 ∧
      ∀ sess, (entrypoint env rt).1 ≠ EpResult.running sess) ∧
    (credsOk env = true →
      (∀ t, slotIdx t < slotIdx s → exceptOk (initSlot rt.construct t).1 = true) →
      (entrypoint env rt).1 = EpResult.slotAborted s ∧
      ∃ e, Ev.error (fatalPrefix s ++ e) ∈ (entrypoint env rt).2) := by
  have hs : exceptOk (initSlot rt.construct s).1 = false := by
    rcases exceptOk_false h1 with ⟨e1, he1⟩
    rcases exceptOk_false h2 with ⟨e2, he2⟩
    unfold initSlot
    rw [he1, he2]
    rfl
  constructor
  · unfold entrypoint
    split
    · exact ⟨by simp, fun sess => nofun⟩
    · split
      · exact ⟨by simp, fun sess => nofun⟩
      · split
        · exact ⟨by simp, fun sess => nofun⟩
        · exact bootSlots_no_session rt _ s hs (by simp)
  · intro hcred hfirst
    have hc : pyTruthy env.AZURE_SPEECH_KEY = true ∧
        pyTruthy env.AZURE_SPEECH_REGION = true ∧
        pyTruthy env.GROQ_API_KEY = true ∧
        pyTruthy env.DEEPGRAM_API_KEY = true := by
      simpa [credsOk, Bool.and_eq_true, and_assoc] using hcred
    obtain ⟨ha, hb, hg, hd⟩ := hc
    have hep : entrypoint env rt = bootSlots rt [Ev.info startMsg, Ev.info assistantMsg] := by
      simp [entrypoint, ha, hb, hg, hd]
    rw [hep]
    exact bootSlots_aborts_at rt _ s hfirst hs

/-- A constructor oracle whose STT attempts both raise and whose other
attempts succeed with handle 3. -/
def conNoStt : AttemptId → Except String Nat :=
  fun a =>
    if a = AttemptId.sttGroq || a = AttemptId.sttDeepgram then Except.error "no stt"
    else Except.ok 3

/-- A runtime whose STT chain is exhausted. -/
def rtNoStt : Runtime Nat :=
  ⟨conNoStt, Except.ok (), fun _ _ => GreetOutcome.done⟩

/-- C2 witness: with both STT attempts failing and all credentials
present, the run aborts at the STT slot with its fatal message and no
session is ever created. -/
theorem C2_exhausted_slot_aborts_witness :
    (Ev.sessionCreated ∉ (entrypoint envAll rtNoStt).2 ∧
      ∀ sess, (entrypoint envAll rtNoStt).1 ≠ EpResult.running sess) ∧
    (credsOk envAll = true →
      (∀ t, slotIdx t < slotIdx Slot.stt →
        exceptOk (initSlot rtNoStt.construct t).1 = true) →
      (entrypoint envAll rtNoStt).1 = EpResult.slotAborted Slot.stt ∧
      ∃ e, Ev.error (fatalPrefix Slot.stt ++ e) ∈ (entrypoint envAll rtNoStt).2) :=
  C2_exhausted_slot_aborts envAll rtNoStt Slot.stt rfl rfl

/-- Whether an event is the awaited greeting generation. -/
def isGreetingAwait : Ev → Bool
  | Ev.greetingAwait _ => true
  | _ => false

theorem greet_count_primFailLog (s : Slot) (e : String) :
    (primFailLog s e).countP isGreetingAwait = 0 := by
  cases s <;> simp [primFailLog, isGreetingAwait]

theorem greet_count_initSlot {H : Type}
    (con : AttemptId → Except String H) (s : Slot) :
    ((initSlot con s).2).countP isGreetingAwait = 0 := by
  unfold initSlot
  cases con (primOf s) with
  | ok h => simp [isGreetingAwait]
  | error e =>
    cases con (fbOf s) with
    | ok h => simp [isGreetingAwait, greet_count_primFailLog]
    | error e2 => simp [isGreetingAwait, greet_count_primFailLog]

theorem bootSlots_run_timeout {H : Type} (rt : Runtime H) (evs : List Ev)
    {a1 a2 a3 a4 : H} {t1 t2 t3 t4 : List Ev}
    (hp1 : initSlot rt.construct Slot.stt = (Except.ok a1, t1))
    (hp2 : initSlot rt.construct Slot.llm = (Except.ok a2, t2))
    (hp3 : initSlot rt.construct Slot.tts = (Except.ok a3, t3))
    (hp4 : initSlot rt.construct Slot.vad = (Except.ok a4, t4))
    (hstart : rt.sessionStart = Except.ok ())
    (htimed : rt.generateReply greetInstructions greeting_timeout = GreetOutcome.timedOut) :
    bootSlots rt evs =
      (EpResult.running ⟨a1, a2, a3, a4⟩,
       evs ++ t1 ++ t2 ++ t3 ++ t4 ++
         [Ev.sessionCreated, Ev.info sessionCreatingMsg] ++
         [Ev.sessionStarted, Ev.info sessionStartedMsg,
          Ev.greetingAwait greeting_timeout] ++
         [Ev.warn greetingTimeoutMsg]) := by
  unfold bootSlots
  rw [hp1, hp2, hp3, hp4]
  unfold afterBootstrap
  rw [hstart, htimed]

/-- C7: when bootstrap and session start succeed, the initial greeting is
awaited exactly once, bounded by the 30-time-unit timeout; on timeout a
warning is logged and the run still ends in the running state — the
timed-out greeting is neither fatal nor retried. -/
theorem C7_greeting_timeout {H : Type} (env : Env) (rt : Runtime H)
    (hcred : credsOk env = true)
    (hslots : ∀ s : Slot, exceptOk (initSlot rt.construct s).1 = true)
    (hstart : rt.sessionStart = Except.ok ())
    (htimed : rt.generateReply greetInstructions greeting_timeout = GreetOutcome.timedOut) :
    (∃ sess, (entrypoint env rt).1 = EpResult.running sess) ∧
    Ev.warn greetingTimeoutMsg ∈ (entrypoint env rt).2 ∧
    Ev.greetingAwait 30 ∈ (entrypoint env rt).2 ∧
    ((entrypoint env rt).2).countP isGreetingAwait = 1 := by
  have hc : pyTruthy env.AZURE_SPEECH_KEY = true ∧
      pyTruthy env.AZURE_SPEECH_REGION = true ∧
      pyTruthy env.GROQ_API_KEY = true ∧
      pyTruthy env.DEEPGRAM_API_KEY = true := by
    simpa [credsOk, Bool.and_eq_true, and_assoc] using hcred
  obtain ⟨ha, hb, hg, hd⟩ := hc
  have hep : entrypoint env rt = bootSlots rt [Ev.info startMsg, Ev.info assistantMsg] := by
    simp [entrypoint, ha, hb, hg, hd]
  rcases exceptOk_true (hslots Slot.stt) with ⟨a1, h1⟩
  rcases exceptOk_true (hslots Slot.llm) with ⟨a2, h2⟩
  rcases exceptOk_true (hslots Slot.tts) with ⟨a3, h3⟩
  rcases exceptOk_true (hslots Slot.vad) with ⟨a4, h4⟩
  have hp1 := pair_eta_fst (initSlot rt.construct Slot.stt) h1
  have hp2 := pair_eta_fst (initSlot rt.construct Slot.llm) h2
  have hp3 := pair_eta_fst (initSlot rt.construct Slot.tts) h3
  have hp4 := pair_eta_fst (initSlot rt.construct Slot.vad) h4
  have hboot := bootSlots_run_timeout rt [Ev.info startMsg, Ev.info assistantMsg]
    hp1 hp2 hp3 hp4 hstart htimed
  rw [hep, hboot]
  refine ⟨⟨⟨a1, a2, a3, a4⟩, rfl⟩, ?_, ?_, ?_⟩
  · simp
  · simp [greeting_timeout]
  · simp [List.countP_append, List.countP_cons, isGreetingAwait,
      greet_count_initSlot rt.construct]

/-- A runtime that bootstraps and starts fine but whose greeting
generation exceeds the timeout. -/
def rtGreetTimeout : Runtime Nat :=
  ⟨fun _ => Except.ok 0, Except.ok (), fun _ _ => GreetOutcome.timedOut⟩

/-- C7 witness: with every backend healthy and a timed-out greeting, the
run is still running, the timeout warning is logged, and the greeting was
awaited exactly once with the 30-unit bound. -/
theorem C7_greeting_timeout_witness :
    (∃ sess, (entrypoint envAll rtGreetTimeout).1 = EpResult.running sess) ∧
    Ev.warn greetingTimeoutMsg ∈ (entrypoint envAll rtGreetTimeout).2 ∧
    Ev.greetingAwait 30 ∈ (entrypoint envAll rtGreetTimeout).2 ∧
    ((entrypoint envAll rtGreetTimeout).2).countP isGreetingAwait = 1 :=
  C7_greeting_timeout envAll rtGreetTimeout rfl
    (fun s => by cases s <;> rfl) rfl rfl
